import Mathlib

/-!
Verification of the credential-security core of the secure-by-design-web
repository: a shallow embedding of the brute-force guard, the login and
registration controllers, the password strength utilities, and
(modelled from the spec, where the implementation lives in third-party
packages) the CSRF token manager and the password hasher.

The persistent store is embedded as an explicit value threaded through the
operations: `Db` holds the `users` and `failed_logins` tables, and the
handlers of `authController.js` become functions `Db -> Response x Db`.
Timestamps are integers (minutes); the SQL window predicate
`attempt_time > NOW() - INTERVAL 15 MINUTE` becomes `now - 15 < time`.
The bcrypt comparison consumed by `authenticateUser` is a parameter
`verify`, and the zxcvbn score consumed by `register` is a parameter
`analyze`: both are third-party primitives the controllers only call.
-/

namespace SecureWeb

/-- One row of the failed_logins table: (ip_address, email, attempt_time). -/
structure FailedLogin where
  ip : String
  email : String
  time : Int
  deriving DecidableEq, Repr

/-- One row of the users table, as selected by SELECT * in authService.js. -/
structure User where
  id : Nat
  username : String
  email : String
  password_hash : String
  deriving DecidableEq, Repr

/-- The shape returned by authenticateUser: the user row with the
password_hash field removed by the object rest-spread on line 76 of
authService.js. -/
structure UserPublic where
  id : Nat
  username : String
  email : String
  deriving DecidableEq, Repr

/-- The persistent store: users and failed_logins tables. -/
structure Db where
  users : List User
  failed_logins : List FailedLogin
  deriving DecidableEq, Repr

/-- A persistence-layer failure (the error caught in authService.js). -/
inductive DbError where
  | unavailable
  deriving DecidableEq, Repr

/-- The trailing window of the brute-force guard: INTERVAL 15 MINUTE in the
query of getFailedLoginCount (authService.js line 95). -/
def windowMinutes : Int := 15

/-- The COUNT query of getFailedLoginCount: entries for this ip with
attempt_time inside the trailing window. -/
def countRecentFailures (db : Db) (now : Int) (ip : String) : Nat :=
  db.failed_logins.countP (fun f => f.ip == ip && decide (now - windowMinutes < f.time))

/-- AuthService.getFailedLoginCount (authService.js lines 91-103): returns
the windowed count, and returns 0 when the store query throws (the catch
branch). The store outcome is the Except argument. -/
def getFailedLoginCount (store : Except DbError Db) (now : Int) (ip : String) : Nat :=
  match store with
  | Except.error _ => 0
  | Except.ok db => countRecentFailures db now ip

/-- The admission gate of AuthController.login (authController.js lines
74-81): deny with 429 when the failed count exceeds 5. Returns
(admitted, currentCount) as named by the spec. -/
def checkAdmission (store : Except DbError Db) (now : Int) (ip : String) : Bool × Nat :=
  let c := getFailedLoginCount store now ip
  (decide (c ≤ 5), c)

/-- AuthService.recordFailedLogin: INSERT INTO failed_logins (ip, email)
with the current time. -/
def recordFailedLogin (db : Db) (ip email : String) (now : Int) : Db :=
  { db with failed_logins := { ip := ip, email := email, time := now } :: db.failed_logins }

/-- AuthService.clearFailedLogins: DELETE FROM failed_logins WHERE
ip_address = ?. -/
def clearFailedLogins (db : Db) (ip : String) : Db :=
  { db with failed_logins := db.failed_logins.filter (fun f => !(f.ip == ip)) }

/-- The errors thrown inside AuthService.authenticateUser / createUser. -/
inductive ServiceError where
  | userNotFound
  | invalidPassword
  | userExists
  deriving DecidableEq, Repr

/-- The rest-spread on authService.js line 76: the user row without its
password_hash field. -/
def stripHash (u : User) : UserPublic :=
  { id := u.id, username := u.username, email := u.email }

/-- AuthService.authenticateUser (authService.js lines 55-78): look the user
up by email, throw if absent, verify the password against the stored hash
(verify abstracts bcrypt.compare), throw if wrong, else return the row
without the hash. -/
def authenticateUser (verify : String → String → Bool) (db : Db)
    (email password : String) : Except ServiceError UserPublic :=
  match db.users.find? (fun u => u.email == email) with
  | none => Except.error ServiceError.userNotFound
  | some u =>
      if verify password u.password_hash then Except.ok (stripHash u)
      else Except.error ServiceError.invalidPassword

/-- An HTTP JSON response: status code plus the body fields the auth
controller writes. The analysis field abbreviates the strength object
attached by register to its score. -/
structure HttpResponse where
  status : Nat
  error : Option String := none
  message : Option String := none
  user : Option UserPublic := none
  analysis : Option Nat := none
  deriving DecidableEq, Repr

/-- A login request: req.ip and req.body. A missing email field is embedded
as the empty string, matching JS truthiness of req.body.email. -/
structure LoginRequest where
  ip : String
  email : String
  password : String
  deriving DecidableEq, Repr

/-- AuthController.login (authController.js lines 66-117): admission gate,
then authenticateUser; on success clear the failed attempts and answer 200;
on any thrown error the catch block records a failed attempt whenever
req.body.email is truthy, and answers the generic 401. -/
def login (verify : String → String → Bool) (db : Db) (now : Int)
    (req : LoginRequest) : HttpResponse × Db :=
  if 5 < getFailedLoginCount (Except.ok db) now req.ip then
    ({ status := 429, error := some "Too many failed attempts",
       message := some "Please try again later" }, db)
  else
    match authenticateUser verify db req.email req.password with
    | Except.ok u =>
        ({ status := 200, message := some "Login successful", user := some u },
         clearFailedLogins db req.ip)
    | Except.error _ =>
        ({ status := 401, error := some "Authentication failed",
           message := some "Invalid email or password" },
         if req.email == "" then db else recordFailedLogin db req.ip req.email now)

/-- The variant login controller of src/unnamed/part_001 (lines 104-118):
identical to login except that its catch block records a failed attempt only
when the thrown error is the invalid-password error. -/
def loginVariant (verify : String → String → Bool) (db : Db) (now : Int)
    (req : LoginRequest) : HttpResponse × Db :=
  if 5 < getFailedLoginCount (Except.ok db) now req.ip then
    ({ status := 429, error := some "Too many failed attempts",
       message := some "Please try again later" }, db)
  else
    match authenticateUser verify db req.email req.password with
    | Except.ok u =>
        ({ status := 200, message := some "Login successful", user := some u },
         clearFailedLogins db req.ip)
    | Except.error e =>
        ({ status := 401, error := some "Authentication failed",
           message := some "Invalid email or password" },
         if e == ServiceError.invalidPassword && !(req.email == "") then
           recordFailedLogin db req.ip req.email now
         else db)

/-- A registration request: req.body of AuthController.register. -/
structure RegisterRequest where
  username : String
  email : String
  password : String
  deriving DecidableEq, Repr

/-- AuthService.createUser (authService.js lines 17-53): uniqueness check on
email or username, then INSERT of the hashed password. The autoincrement
insertId is embedded as the table length plus one; hashF abstracts
bcrypt.hash. The fire-and-forget hash-comparison telemetry write is outside
the store embedded here. -/
def createUser (hashF : String → String) (db : Db)
    (username email password : String) : Except ServiceError (UserPublic × Db) :=
  if db.users.any (fun u => u.email == email || u.username == username) then
    Except.error ServiceError.userExists
  else
    let uid := db.users.length + 1
    let u : User := { id := uid, username := username, email := email,
                      password_hash := hashF password }
    Except.ok ({ id := uid, username := username, email := email },
               { db with users := db.users ++ [u] })

/-- AuthController.register (authController.js lines 8-64): strength gate
(analyze abstracts the zxcvbn score 0-4) answering 400 with the analysis when
score < 2, then createUser, mapping the already-exists error to 400. -/
def register (analyze : String → Nat) (hashF : String → String) (db : Db)
    (req : RegisterRequest) : HttpResponse × Db :=
  let score := analyze req.password
  if score < 2 then
    ({ status := 400, error := some "Weak password",
       message := some "Please choose a stronger password",
       analysis := some score }, db)
  else
    match createUser hashF db req.username req.email req.password with
    | Except.ok (u, db2) =>
        ({ status := 201, message := some "User registered successfully",
           user := some u, analysis := some score }, db2)
    | Except.error _ =>
        ({ status := 400, error := some "Registration failed",
           message := some "User with this email or username already exists" }, db)

/-- The character class of the regex [a-z] in PasswordService. -/
def isLowerChar (c : Char) : Bool := 'a' ≤ c && c ≤ 'z'

/-- The character class of the regex [A-Z] in PasswordService. -/
def isUpperChar (c : Char) : Bool := 'A' ≤ c && c ≤ 'Z'

/-- The character class of the regex [0-9] in PasswordService. -/
def isDigitChar (c : Char) : Bool := '0' ≤ c && c ≤ '9'

/-- The character class of the regex [^a-zA-Z0-9] in PasswordService. -/
def isSymbolChar (c : Char) : Bool := !(isLowerChar c || isUpperChar c || isDigitChar c)

/-- The test /[a-z]/.test(password). -/
def hasLower (p : String) : Bool := p.data.any isLowerChar

/-- The test /[A-Z]/.test(password). -/
def hasUpper (p : String) : Bool := p.data.any isUpperChar

/-- The test /[0-9]/.test(password). -/
def hasDigit (p : String) : Bool := p.data.any isDigitChar

/-- The test /[^a-zA-Z0-9]/.test(password). -/
def hasSymbol (p : String) : Bool := p.data.any isSymbolChar

/-- PasswordService.getCharsetSize (Post.js second part, lines 269-276). -/
def getCharsetSize (p : String) : Nat :=
  (if hasLower p then 26 else 0) + (if hasUpper p then 26 else 0) +
    (if hasDigit p then 10 else 0) + (if hasSymbol p then 32 else 0)

/-- PasswordService.calculateEntropy (Post.js second part, lines 264-267):
Math.log2(Math.pow(charsetSize, password.length)), with JS floats embedded
as reals. -/
noncomputable def calculateEntropy (p : String) : ℝ :=
  Real.logb 2 ((getCharsetSize p : ℝ) ^ p.length)

/-- Error message of the length rule in validatePassword. -/
def tooShortMsg : String := "Password must be at least 8 characters long"

/-- Error message of the lowercase rule in validatePassword. -/
def noLowerMsg : String := "Password must contain at least one lowercase letter"

/-- Error message of the uppercase rule in validatePassword. -/
def noUpperMsg : String := "Password must contain at least one uppercase letter"

/-- Error message of the digit rule in validatePassword. -/
def noDigitMsg : String := "Password must contain at least one number"

/-- Error message of the denylist rule in validatePassword. -/
def commonMsg : String := "Password is too common"

/-- The common-password denylist of validatePassword. -/
def commonPasswords : List String := ["password", "123456", "qwerty", "letmein", "admin"]

/-- The toLowerCase call of validatePassword, character by character. -/
def jsToLower (p : String) : String := { data := p.data.map Char.toLower }

/-- The {isValid, errors} object returned by validatePassword. -/
structure ValidationResult where
  isValid : Bool
  errors : List String
  deriving DecidableEq, Repr

/-- PasswordService.validatePassword (Post.js second part, lines 278-306):
push one error message per violated rule, valid iff no errors. -/
def validatePassword (p : String) : ValidationResult :=
  let errors :=
    (if p.length < 8 then [tooShortMsg] else []) ++
      (if !(hasLower p) then [noLowerMsg] else []) ++
      (if !(hasUpper p) then [noUpperMsg] else []) ++
      (if !(hasDigit p) then [noDigitMsg] else []) ++
      (if commonPasswords.contains (jsToLower p) then [commonMsg] else [])
  { isValid := errors.isEmpty, errors := errors }

/-- Modelled from the spec: the per-session CSRF state of section 4.4. The
secret derivation and check live in the csurf package, which is not under
src; only its wiring (csrfProtection.js) is. -/
structure CsrfSession where
  secret : Option String
  deriving DecidableEq, Repr

/-- Modelled from the spec: the token derivation of section 4.4, a
deterministic function of the session secret. Collision-freeness of the
cryptographic derivation is idealised as injectivity. -/
def deriveToken (secret : String) : String := "csrf." ++ secret

/-- Modelled from the spec: issue(session) of section 4.4 — derive the token
from the session secret, creating the secret if absent; the randomly drawn
fresh secret is passed as an argument. -/
def issueToken (fresh : String) (s : CsrfSession) : String × CsrfSession :=
  match s.secret with
  | some sec => (deriveToken sec, s)
  | none => (deriveToken fresh, { secret := some fresh })

/-- Modelled from the spec: validate(session, presentedToken) of section 4.4
— true only if the session holds a secret and the presented token equals the
derivation from that secret (the constant-time compare is embedded as
equality; timing is outside the embedding). -/
def validateToken (s : CsrfSession) (t : String) : Bool :=
  match s.secret with
  | none => false
  | some sec => t == deriveToken sec

/-- The IntegrityError of spec section 4.1 for malformed stored encodings. -/
inductive IntegrityError where
  | malformedEncoding
  deriving DecidableEq, Repr

/-- The algorithm tag and cost header of the adaptive encoding (bcrypt,
cost 12, as configured in authService.js). -/
def bcryptTag : String := "$2b$12$"

/-- Modelled from the spec: the adaptive hash encoding produced by the
hasher of section 4.1. The one-way digest lives in the bcrypt package, not
under src; it is idealised as an injective function of the password. -/
def bcryptHashEnc (password : String) : String := bcryptTag ++ password

/-- Modelled from the spec: the well-formedness check of section 4.1 — the
stored encoding carries the expected algorithm tag and format. -/
def wellFormedEncoding (enc : String) : Bool := bcryptTag.data.isPrefixOf enc.data

/-- Modelled from the spec: PasswordHasher.verify of section 4.1, the
contract behind AuthService.verifyPassword — IntegrityError exactly on a
malformed encoding, otherwise the boolean match result. -/
def verifyEncoded (password enc : String) : Except IntegrityError Bool :=
  if wellFormedEncoding enc then Except.ok (enc == bcryptHashEnc password)
  else Except.error IntegrityError.malformedEncoding

/-- Six failed attempts from one ip at time 100: witness store for the
lockout theorem. -/
def dbSix : Db :=
  { users := [],
    failed_logins :=
      [{ ip := "203.0.113.5", email := "user@example.com", time := 100 },
       { ip := "203.0.113.5", email := "user@example.com", time := 99 },
       { ip := "203.0.113.5", email := "user@example.com", time := 98 },
       { ip := "203.0.113.5", email := "user@example.com", time := 97 },
       { ip := "203.0.113.5", email := "user@example.com", time := 96 },
       { ip := "203.0.113.5", email := "user@example.com", time := 95 }] }

/-- A store with no users at all. -/
def dbEmpty : Db := { users := [], failed_logins := [] }

/-- A login request for an email that no stored credential carries. -/
def reqGhost : LoginRequest :=
  { ip := "203.0.113.5", email := "ghost@example.com", password := "pw" }

/-- A one-user store for the enumeration and hash-stripping witnesses. -/
def dbAlice : Db :=
  { users := [{ id := 1, username := "alice", email := "alice@example.com",
                password_hash := "hash-alice" }],
    failed_logins := [] }

/-- A login request for the known user with a wrong password. -/
def reqAliceWrong : LoginRequest :=
  { ip := "203.0.113.5", email := "alice@example.com", password := "wrong" }

/-- A literal-equality verify function used by witnesses in place of the
bcrypt.compare parameter. -/
def eqVerify : String → String → Bool := fun p h => p == h

theorem countRecentFailures_clear (db : Db) (now : Int) (ip : String) :
    countRecentFailures (clearFailedLogins db ip) now ip = 0 := by
  simp only [countRecentFailures, clearFailedLogins]
  rw [List.countP_eq_zero]
  intro f hf
  have h := (List.mem_filter.mp hf).2
  simp only [Bool.not_eq_eq_eq_not, Bool.not_true] at h
  simp [h]

theorem ne_cons_of_length_le {α : Type} (l l2 : List α) (x : α)
    (h : l2.length ≤ l.length) : l2 ≠ x :: l := by
  intro he
  rw [he] at h
  simp only [List.length_cons] at h
  omega

/-- C1: after exactly 6 recorded failures for an ip inside the trailing
15-minute window, the admission check denies (the 429 response is returned
for any verify function and any password), and immediately after
clearFailedLogins the admission check admits with count 0. -/
theorem c1_lockout_after_six_and_clear (db : Db) (now : Int) (ip : String)
    (h6 : countRecentFailures db now ip = 6) :
    checkAdmission (Except.ok db) now ip = (false, 6) ∧
    (∀ (verify : String → String → Bool) (req : LoginRequest), req.ip = ip →
      (login verify db now req).1 =
        { status := 429, error := some "Too many failed attempts",
          message := some "Please try again later" }) ∧
    (∀ db2 : Db, checkAdmission (Except.ok (clearFailedLogins db2 ip)) now ip = (true, 0)) := by
  refine ⟨?_, ?_, ?_⟩
  · simp [checkAdmission, getFailedLoginCount, h6]
  · intro verify req hip
    have hc : getFailedLoginCount (Except.ok db) now req.ip = 6 := by
      simp [getFailedLoginCount, hip, h6]
    simp [login, hc]
  · intro db2
    simp [checkAdmission, getFailedLoginCount, countRecentFailures_clear]

/-- Closed instance of the C1 theorem on a six-entry store. -/
theorem c1_lockout_witness :
    checkAdmission (Except.ok dbSix) 100 "203.0.113.5" = (false, 6) ∧
    (login (fun _ _ => true) dbSix 100
        { ip := "203.0.113.5", email := "user@example.com", password := "correct" }).1 =
      { status := 429, error := some "Too many failed attempts",
        message := some "Please try again later" } ∧
    checkAdmission (Except.ok (clearFailedLogins dbSix "203.0.113.5")) 100 "203.0.113.5" =
      (true, 0) := by
  have h := c1_lockout_after_six_and_clear dbSix 100 "203.0.113.5" (by decide)
  exact ⟨h.1, h.2.1 _ _ rfl, h.2.2 dbSix⟩

theorem string_append_left_cancel (a b c : String) (h : a ++ b = a ++ c) : b = c := by
  have hd := congrArg String.data h
  rw [String.data_append, String.data_append] at hd
  have h2 := List.append_cancel_left hd
  cases b
  cases c
  exact congrArg String.mk h2

theorem isPrefixOf_append_self (l1 l2 : List Char) : l1.isPrefixOf (l1 ++ l2) = true := by
  induction l1 with
  | nil => simp
  | cons a t ih => simp [List.isPrefixOf_cons₂, ih]

/-- C2 counterexample: on a store holding no identity for the request email,
the main login controller still records a failed attempt row, though no
password verification ever ran. -/
theorem c2_counterexample_not_found_recorded :
    dbEmpty.users.find? (fun u => u.email == reqGhost.email) = none ∧
    (login (fun _ _ => false) dbEmpty 0 reqGhost).2.failed_logins =
      [{ ip := "203.0.113.5", email := "ghost@example.com", time := 0 }] :=
  ⟨rfl, rfl⟩

/-- C2 amended: the main controller records a failure row exactly when the
request was admitted, the authentication pipeline threw any error
(identity-not-found included), and the request email is truthy; the part_001
variant records exactly when the thrown error is the invalid-password error,
that is, after a verification actually ran and returned false. -/
theorem c2_record_characterisation (verify : String → String → Bool) (db : Db)
    (now : Int) (req : LoginRequest) :
    ((login verify db now req).2.failed_logins =
        { ip := req.ip, email := req.email, time := now } :: db.failed_logins ↔
      (getFailedLoginCount (Except.ok db) now req.ip ≤ 5 ∧
        (authenticateUser verify db req.email req.password).isOk = false ∧
        (req.email == "") = false)) ∧
    ((loginVariant verify db now req).2.failed_logins =
        { ip := req.ip, email := req.email, time := now } :: db.failed_logins ↔
      (getFailedLoginCount (Except.ok db) now req.ip ≤ 5 ∧
        authenticateUser verify db req.email req.password =
          Except.error ServiceError.invalidPassword ∧
        (req.email == "") = false)) := by
  by_cases hadm : 5 < getFailedLoginCount (Except.ok db) now req.ip
  · have hL : (login verify db now req).2 = db := by
      simp only [login, if_pos hadm]
    have hV : (loginVariant verify db now req).2 = db := by
      simp only [loginVariant, if_pos hadm]
    rw [hL, hV]
    constructor
    · constructor
      · intro h
        exact absurd h (ne_cons_of_length_le _ _ _ (le_refl _))
      · rintro ⟨h1, -, -⟩
        omega
    · constructor
      · intro h
        exact absurd h (ne_cons_of_length_le _ _ _ (le_refl _))
      · rintro ⟨h1, -, -⟩
        omega
  · cases hauth : authenticateUser verify db req.email req.password with
    | ok u =>
        have hL : (login verify db now req).2 = clearFailedLogins db req.ip := by
          simp only [login, if_neg hadm, hauth]
        have hV : (loginVariant verify db now req).2 = clearFailedLogins db req.ip := by
          simp only [loginVariant, if_neg hadm, hauth]
        rw [hL, hV]
        constructor
        · constructor
          · intro h
            exact absurd h
              (ne_cons_of_length_le _ _ _ (List.length_filter_le _ _))
          · rintro ⟨-, h2, -⟩
            simp [Except.isOk, Except.toBool] at h2
        · constructor
          · intro h
            exact absurd h
              (ne_cons_of_length_le _ _ _ (List.length_filter_le _ _))
          · rintro ⟨-, h2, -⟩
            exact Except.noConfusion h2
    | error er =>
        by_cases hem : req.email == ""
        · have hL : (login verify db now req).2 = db := by
            simp only [login, if_neg hadm, hauth, if_pos hem]
          have hcond : (er == ServiceError.invalidPassword && !(req.email == "")) = false := by
            rw [hem]
            simp
          have hV : (loginVariant verify db now req).2 = db := by
            simp only [loginVariant, if_neg hadm, hauth, hcond, Bool.false_eq_true,
              if_false]
          rw [hL, hV]
          constructor
          · constructor
            · intro h
              exact absurd h (ne_cons_of_length_le _ _ _ (le_refl _))
            · rintro ⟨-, -, h3⟩
              rw [hem] at h3
              cases h3
          · constructor
            · intro h
              exact absurd h (ne_cons_of_length_le _ _ _ (le_refl _))
            · rintro ⟨-, -, h3⟩
              rw [hem] at h3
              cases h3
        · have hem2 : (req.email == "") = false := Bool.eq_false_iff.mpr hem
          have hle : getFailedLoginCount (Except.ok db) now req.ip ≤ 5 := by omega
          have hL : (login verify db now req).2 = recordFailedLogin db req.ip req.email now := by
            simp only [login, if_neg hadm, hauth, hem2, Bool.false_eq_true, if_false]
          rw [hL]
          constructor
          · constructor
            · intro _
              exact ⟨hle, rfl, hem2⟩
            · intro _
              rfl
          · by_cases her : er = ServiceError.invalidPassword
            · have hcond : (er == ServiceError.invalidPassword && !(req.email == "")) = true := by
                rw [her, hem2]
                simp
              have hV : (loginVariant verify db now req).2 =
                  recordFailedLogin db req.ip req.email now := by
                simp only [loginVariant, if_neg hadm, hauth, hcond, if_true]
              rw [hV]
              constructor
              · intro _
                refine ⟨hle, ?_, hem2⟩
                rw [her]
              · intro _
                rfl
            · have hcond : (er == ServiceError.invalidPassword && !(req.email == "")) = false := by
                have hbe : (er == ServiceError.invalidPassword) = false :=
                  beq_eq_false_iff_ne.mpr her
                rw [hbe]
                simp
              have hV : (loginVariant verify db now req).2 = db := by
                simp only [loginVariant, if_neg hadm, hauth, hcond, Bool.false_eq_true,
                  if_false]
              rw [hV]
              constructor
              · intro h
                exact absurd h (ne_cons_of_length_le _ _ _ (le_refl _))
              · rintro ⟨-, h2, -⟩
                exact absurd (Except.error.inj h2) her

/-- Closed instance of the amended C2 characterisation: the part_001 variant
does not record on an identity-not-found error. -/
theorem c2_amended_witness :
    (loginVariant (fun _ _ => false) dbEmpty 0 reqGhost).2.failed_logins =
      dbEmpty.failed_logins := by
  have h := (c2_record_characterisation (fun _ _ => false) dbEmpty 0 reqGhost).2
  rfl

/-- C3: the response of the main login controller for an unknown email and
for a known email with a wrong password is one and the same value; when the
request is admitted it is the generic 401. -/
theorem c3_identical_failure_responses (verify : String → String → Bool) (db : Db)
    (now : Int) (reqA reqB : LoginRequest) (hip : reqA.ip = reqB.ip)
    (hA : db.users.find? (fun u => u.email == reqA.email) = none)
    (u : User) (hB : db.users.find? (fun u2 => u2.email == reqB.email) = some u)
    (hw : verify reqB.password u.password_hash = false) :
    (login verify db now reqA).1 = (login verify db now reqB).1 ∧
    (getFailedLoginCount (Except.ok db) now reqA.ip ≤ 5 →
      (login verify db now reqA).1 =
        { status := 401, error := some "Authentication failed",
          message := some "Invalid email or password" }) := by
  have eA : authenticateUser verify db reqA.email reqA.password =
      Except.error ServiceError.userNotFound := by
    unfold authenticateUser
    rw [hA]
  have eB : authenticateUser verify db reqB.email reqB.password =
      Except.error ServiceError.invalidPassword := by
    unfold authenticateUser
    rw [hB]
    simp [hw]
  by_cases hadm : 5 < getFailedLoginCount (Except.ok db) now reqA.ip
  · have hadmB : 5 < getFailedLoginCount (Except.ok db) now reqB.ip := by
      rw [← hip]
      exact hadm
    constructor
    · simp only [login, if_pos hadm, if_pos hadmB]
    · intro hle
      omega
  · have hadmB : ¬ 5 < getFailedLoginCount (Except.ok db) now reqB.ip := by
      rw [← hip]
      exact hadm
    constructor
    · simp only [login, if_neg hadm, if_neg hadmB, eA, eB]
    · intro _
      simp only [login, if_neg hadm, eA]

/-- Closed instance of the C3 theorem: ghost email versus wrong password for
alice produce the identical generic 401. -/
theorem c3_identical_witness :
    (login eqVerify dbAlice 0 reqGhost).1 = (login eqVerify dbAlice 0 reqAliceWrong).1 ∧
    (login eqVerify dbAlice 0 reqGhost).1 =
      { status := 401, error := some "Authentication failed",
        message := some "Invalid email or password" } := by
  have h := c3_identical_failure_responses eqVerify dbAlice 0 reqGhost reqAliceWrong rfl
    (by rfl)
    { id := 1, username := "alice", email := "alice@example.com",
      password_hash := "hash-alice" }
    (by rfl) (by rfl)
  exact ⟨h.1, h.2 (by decide)⟩

/-- C4: a token issued for a session fails validation against any session
holding a different secret, and validation succeeds exactly when the session
holds a secret whose derivation equals the presented token. -/
theorem c4_token_bound_to_session :
    (∀ (a b : CsrfSession) (sa sb fresh : String),
        a.secret = some sa → b.secret = some sb → sa ≠ sb →
        validateToken b (issueToken fresh a).1 = false) ∧
    (∀ (s : CsrfSession) (t : String),
        validateToken s t = true ↔ ∃ sec, s.secret = some sec ∧ t = deriveToken sec) := by
  have hinj : ∀ x y : String, deriveToken x = deriveToken y → x = y := by
    intro x y hxy
    exact string_append_left_cancel _ _ _ hxy
  constructor
  · intro a b sa sb fresh ha hb hne
    simp only [validateToken, issueToken, ha, hb]
    apply beq_eq_false_iff_ne.mpr
    intro hq
    exact hne (hinj _ _ hq)
  · intro s t
    cases hs : s.secret with
    | none => simp [validateToken, hs]
    | some sec => simp [validateToken, hs]

/-- Closed instance of the C4 theorem with two distinct secrets. -/
theorem c4_binding_witness :
    validateToken { secret := some "secret-b" }
      (issueToken "fresh" { secret := some "secret-a" }).1 = false ∧
    validateToken { secret := some "secret-b" } (deriveToken "secret-b") = true := by
  constructor
  · exact c4_token_bound_to_session.1 { secret := some "secret-a" }
      { secret := some "secret-b" } "secret-a" "secret-b" "fresh" rfl rfl (by decide)
  · exact (c4_token_bound_to_session.2 { secret := some "secret-b" }
      (deriveToken "secret-b")).mpr ⟨"secret-b", rfl, rfl⟩

/-- C6: the modelled hasher verify errors with IntegrityError exactly on a
malformed encoding, and on the well-formed encoding of a stored password it
returns the plain boolean match, so a wrong password is never an
IntegrityError and a corrupt record is never a plain false. -/
theorem c6_integrity_error_iff_malformed (p enc stored : String) :
    ((∃ e, verifyEncoded p enc = Except.error e) ↔ wellFormedEncoding enc = false) ∧
    verifyEncoded p (bcryptHashEnc stored) = Except.ok (p == stored) := by
  constructor
  · cases h : wellFormedEncoding enc with
    | true => simp [verifyEncoded, h]
    | false =>
        simp only [verifyEncoded, h, Bool.false_eq_true, if_false]
        constructor
        · intro _
          trivial
        · intro _
          exact ⟨IntegrityError.malformedEncoding, trivial⟩
  · have hw : wellFormedEncoding (bcryptHashEnc stored) = true := by
      unfold wellFormedEncoding bcryptHashEnc
      rw [String.data_append]
      exact isPrefixOf_append_self _ _
    unfold verifyEncoded
    rw [if_pos hw]
    congr 1
    cases hps : p == stored with
    | true =>
        have hpe : p = stored := eq_of_beq hps
        subst hpe
        simp
    | false =>
        apply beq_eq_false_iff_ne.mpr
        intro hq
        have h2 := string_append_left_cancel _ _ _ hq
        rw [h2] at hps
        simp at hps

/-- Closed instance of the C6 theorem: a tagless encoding errors, a
well-formed encoding of another password answers ok false. -/
theorem c6_integrity_witness :
    (∃ e, verifyEncoded "pw" "garbage" = Except.error e) ∧
    verifyEncoded "pw" (bcryptHashEnc "other") = Except.ok false := by
  constructor
  · exact (c6_integrity_error_iff_malformed "pw" "garbage" "other").1.mpr (by decide)
  · rw [(c6_integrity_error_iff_malformed "pw" "garbage" "other").2]
    rfl

/-- C5: a registration whose password scores below 2 gets the 400 weak
password response carrying the analysis, and the store is returned
unchanged: no user row is inserted. -/
theorem c5_weak_password_rejected (analyze : String → Nat) (hashF : String → String)
    (db : Db) (req : RegisterRequest) (h : analyze req.password < 2) :
    register analyze hashF db req =
      ({ status := 400, error := some "Weak password",
         message := some "Please choose a stronger password",
         analysis := some (analyze req.password) }, db) := by
  simp [register, h]

/-- Closed instance of the C5 theorem at score 0. -/
theorem c5_weak_password_witness :
    register (fun _ => 0) (fun p => p) dbEmpty
        { username := "bob", email := "bob@example.com", password := "Password1" } =
      ({ status := 400, error := some "Weak password",
         message := some "Please choose a stronger password",
         analysis := some 0 }, dbEmpty) :=
  c5_weak_password_rejected (fun _ => 0) (fun p => p) dbEmpty
    { username := "bob", email := "bob@example.com", password := "Password1" } (by decide)

/-- C9: when the failed-attempt store errors during the admission check,
getFailedLoginCount returns 0 and the check admits: the guard fails open,
its signature offering no policy input to choose fail-closed. -/
theorem c9_fail_open_on_store_error (e : DbError) (now : Int) (ip : String) :
    getFailedLoginCount (Except.error e) now ip = 0 ∧
    checkAdmission (Except.error e) now ip = (true, 0) :=
  ⟨rfl, rfl⟩

/-- Closed instance of the C9 theorem. -/
theorem c9_fail_open_witness :
    getFailedLoginCount (Except.error DbError.unavailable) 100 "203.0.113.5" = 0 ∧
    checkAdmission (Except.error DbError.unavailable) 100 "203.0.113.5" = (true, 0) :=
  c9_fail_open_on_store_error DbError.unavailable 100 "203.0.113.5"

/-- C10: a successful authenticateUser returns exactly the found user row
with the password_hash field stripped, and the stripped shape is invariant
under the stored hash. -/
theorem c10_success_strips_hash (verify : String → String → Bool) (db : Db)
    (email password : String) (pub : UserPublic)
    (h : authenticateUser verify db email password = Except.ok pub) :
    (∃ u, db.users.find? (fun u2 => u2.email == email) = some u ∧
      verify password u.password_hash = true ∧ pub = stripHash u) ∧
    (∀ (u : User) (hash2 : String), stripHash { u with password_hash := hash2 } = stripHash u) := by
  constructor
  · unfold authenticateUser at h
    cases hf : db.users.find? (fun u2 => u2.email == email) with
    | none => rw [hf] at h; cases h
    | some u =>
        rw [hf] at h
        dsimp only at h
        by_cases hv : verify password u.password_hash
        · rw [if_pos hv] at h
          exact ⟨u, rfl, hv, (Except.ok.inj h).symm⟩
        · rw [if_neg hv] at h; cases h
  · intro u hash2
    rfl

/-- Closed instance of the C10 theorem on a one-user store. -/
theorem c10_strips_hash_witness :
    ∃ u, dbAlice.users.find? (fun u2 => u2.email == "alice@example.com") = some u ∧
      eqVerify "hash-alice" u.password_hash = true ∧
      ({ id := 1, username := "alice", email := "alice@example.com" } : UserPublic) =
        stripHash u :=
  (c10_success_strips_hash eqVerify dbAlice "alice@example.com" "hash-alice"
    { id := 1, username := "alice", email := "alice@example.com" } (by rfl)).1

theorem ten_le_charset (p : String) (h : p.data ≠ []) : 10 ≤ getCharsetSize p := by
  obtain ⟨c, cs, hd⟩ : ∃ c cs, p.data = c :: cs := by
    cases hp : p.data with
    | nil => exact absurd hp h
    | cons c cs => exact ⟨c, cs, rfl⟩
  have hc : c ∈ p.data := by
    rw [hd]
    exact List.mem_cons_self _ _
  by_cases h1 : isLowerChar c
  · have hx : hasLower p = true := List.any_eq_true.mpr ⟨c, hc, h1⟩
    simp only [getCharsetSize, hx, if_true]
    split_ifs <;> omega
  · by_cases h2 : isUpperChar c
    · have hx : hasUpper p = true := List.any_eq_true.mpr ⟨c, hc, h2⟩
      simp only [getCharsetSize, hx, if_true]
      split_ifs <;> omega
    · by_cases h3 : isDigitChar c
      · have hx : hasDigit p = true := List.any_eq_true.mpr ⟨c, hc, h3⟩
        simp only [getCharsetSize, hx, if_true]
        split_ifs <;> omega
      · have h4 : isSymbolChar c = true := by
          simp only [isSymbolChar, Bool.eq_false_iff.mpr h1, Bool.eq_false_iff.mpr h2,
            Bool.eq_false_iff.mpr h3]
          rfl
        have hx : hasSymbol p = true := List.any_eq_true.mpr ⟨c, hc, h4⟩
        simp only [getCharsetSize, hx, if_true]
        split_ifs <;> omega

/-- C7: calculateEntropy equals length times log2 of the charset size, where
the charset size sums 26 for a lowercase, 26 for an uppercase, 10 for a
digit and 32 for any other character present; it is nonnegative for every
password and zero on the empty string. -/
theorem c7_entropy_formula (p : String) :
    calculateEntropy p = p.length * Real.logb 2 (getCharsetSize p) ∧
    0 ≤ calculateEntropy p ∧ calculateEntropy "" = 0 := by
  refine ⟨?_, ?_, ?_⟩
  · unfold calculateEntropy
    exact Real.logb_pow 2 (getCharsetSize p : ℝ) p.length
  · by_cases h : p.data = []
    · have hl : p.length = 0 := by
        simp [String.length, h]
      unfold calculateEntropy
      rw [hl]
      simp
    · have h10 := ten_le_charset p h
      have h1 : (1 : ℝ) ≤ (getCharsetSize p : ℝ) := by
        have hn : (1 : ℕ) ≤ getCharsetSize p := by omega
        exact_mod_cast hn
      unfold calculateEntropy
      exact Real.logb_nonneg (by norm_num) (one_le_pow₀ h1)
  · unfold calculateEntropy
    have h0 : getCharsetSize "" = 0 := rfl
    have hl : ("" : String).length = 0 := rfl
    rw [h0, hl]
    simp

/-- C8: validatePassword is invalid exactly when a rule is violated, carries
the matching error message exactly for each violated rule — length below 8,
missing lowercase, missing uppercase, missing digit, membership in the
common-password denylist — and on the empty string it fails with the
too-short message among the errors. -/
theorem c8_validate_characterisation (p : String) :
    ((validatePassword p).isValid = false ↔
      (p.length < 8 ∨ hasLower p = false ∨ hasUpper p = false ∨ hasDigit p = false ∨
        commonPasswords.contains (jsToLower p) = true)) ∧
    (tooShortMsg ∈ (validatePassword p).errors ↔ p.length < 8) ∧
    (noLowerMsg ∈ (validatePassword p).errors ↔ hasLower p = false) ∧
    (noUpperMsg ∈ (validatePassword p).errors ↔ hasUpper p = false) ∧
    (noDigitMsg ∈ (validatePassword p).errors ↔ hasDigit p = false) ∧
    (commonMsg ∈ (validatePassword p).errors ↔
      commonPasswords.contains (jsToLower p) = true) ∧
    ((validatePassword "").isValid = false ∧ tooShortMsg ∈ (validatePassword "").errors) := by
  by_cases h1 : p.length < 8 <;>
    by_cases h2 : hasLower p <;>
      by_cases h3 : hasUpper p <;>
        by_cases h4 : hasDigit p <;>
          by_cases h5 : commonPasswords.contains (jsToLower p) <;>
            simp_all [validatePassword, tooShortMsg, noLowerMsg, noUpperMsg, noDigitMsg,
              commonMsg]

end SecureWeb
